import Mathlib

/-!
The kube-vip cloud provider, `pkg/provider/provider.go`.

A shallow embedding of the provider bootstrap code.  Everything the Go file
obtains from outside its own package (the process environment, the client-go
configuration loaders, `filepath.Join`, the package-level flag
`OutSideCluster`) is gathered in a `World` record; every call that leaves the
package is also written to a call log, so that statements such as "the
kubeconfig file is never read" can be made about the log.

Go values are rendered as follows.

* `error` is the text of `err.Error()`.
* An interface value (`cloudprovider.LoadBalancer`) is an `Option`: `none` is
  the nil interface.
* A function that returns `(value, error)` returns `Except String value`.
* A function that may also panic returns an `Outcome`.
-/

namespace Provider

/-! ## Values and effects -/

/-- What a Go call of type `(T, error)` that may also panic ends with. -/
inductive Outcome (α : Type) where
  | ok (v : α)
  | error (msg : String)
  | panic (msg : String)

/-- A stop channel `<-chan struct{}`: `none` is the nil channel, `some n` the
channel with identity `n`. -/
abbrev StopCh := Option Nat

/-- The calls that leave the package, in the words of the source.  The last
two are what wiring a watcher would take (the commented-out
`sharedInformer.Core().V1().Services()` of `Initialize` and a handler on it);
they are here so that their absence from a log can be stated. -/
inductive Call (Config Client : Type) where
  | Getenv (key : String)
  | Infof (format : String) (args : List String)
  | Info (msg : String)
  | InClusterConfig
  | BuildConfigFromFlags (masterUrl kubeconfigPath : String)
  | NewForConfig (c : Config)
  | newLoadBalancer (cl : Client) (ns cm : String)
  | ClientOrDie (name : String)
  | NewSharedInformerFactory (cl : Client) (defaultResync : Nat)
  | Start (stopCh : StopCh)
  | WaitForCacheSync (stopCh : StopCh)
  | Informer (resource : String)
  | AddEventHandler (resource : String)

/-- Everything `provider.go` reads from outside the package. -/
structure World (Config Client LB : Type) where
  /-- The package-level variable `OutSideCluster` (line 19). -/
  OutSideCluster : Bool
  /-- The process environment: `none` for a variable that is not set. -/
  environ : String → Option String
  /-- `rest.InClusterConfig()`. -/
  InClusterConfig : Except String Config
  /-- `clientcmd.BuildConfigFromFlags(masterUrl, kubeconfigPath)`. -/
  BuildConfigFromFlags : String → String → Except String Config
  /-- `kubernetes.NewForConfig(cfg)`. -/
  NewForConfig : Config → Except String Client
  /-- `filepath.Join(elem...)`. -/
  Join : List String → String
  /-- `newLoadBalancer(cl, ns, cm)`, defined in another file of the package;
  it returns an interface value. -/
  newLoadBalancer : Client → String → String → Option LB

/-- `os.Getenv`: the value of the variable, or the empty string when it is
not set. -/
def Getenv (environ : String → Option String) (key : String) : String :=
  (environ key).getD ""

/-- A finished call of a function of the package: how it ended and which
calls it made, in order. -/
structure Run (Config Client α : Type) where
  result : Outcome α
  calls : List (Call Config Client)

/-! ## Constants (lines 21-33) -/

/-- `ProviderName` is the name of the cloud provider. -/
def ProviderName : String := "kubevip"

/-- `KubeVipClientConfig` is the default name of the load balancer config map. -/
def KubeVipClientConfig : String := "kubevip"

/-- `KubeVipClientConfigNamespace` is the default namespace of the load
balancer config map. -/
def KubeVipClientConfigNamespace : String := "kube-system"

/-- `KubeVipServicesKey` is the key in the config map that has the services
configuration. -/
def KubeVipServicesKey : String := "kubevip-services"

/-! ## The provider (lines 39-42) -/

/-- `KubeVipCloudProvider`: its one field is the load-balancer interface. -/
structure KubeVipCloudProvider (LB : Type) where
  lb : Option LB

/-! ## `newKubeVipCloudProvider` (lines 46-87) -/

/-- The value of the local `cm` after lines 48 and 50-52. -/
def resolvedConfigMap (environ : String → Option String) : String :=
  let cm := Getenv environ "KUBEVIP_CONFIG_MAP"
  if cm = "" then KubeVipClientConfig else cm

/-- The value of the local `ns` after lines 47 and 54-56. -/
def resolvedNamespace (environ : String → Option String) : String :=
  let ns := Getenv environ "KUBEVIP_NAMESPACE"
  if ns = "" then KubeVipClientConfigNamespace else ns

/-- The format string of the `klog.Infof` call of line 58. -/
def watchingFormat : String :=
  "Watching configMap for pool config with name: '%s', namespace: '%s'"

/-- The calls of lines 47-58, made on every path. -/
def preamble {Config Client : Type} (environ : String → Option String) :
    List (Call Config Client) :=
  [.Getenv "KUBEVIP_NAMESPACE", .Getenv "KUBEVIP_CONFIG_MAP",
   .Infof watchingFormat [resolvedConfigMap environ, resolvedNamespace environ]]

/-- The path handed to `clientcmd.BuildConfigFromFlags` on line 74. -/
def kubeconfigPath {Config Client LB : Type} (w : World Config Client LB) : String :=
  w.Join [Getenv w.environ "HOME", ".kube", "config"]

/-- `newKubeVipCloudProvider(io.Reader)`.  The reader is not named in the
source and is not used. -/
def newKubeVipCloudProvider {Config Client LB Reader : Type}
    (w : World Config Client LB) (_ : Reader) :
    Run Config Client (KubeVipCloudProvider LB) :=
  let ns := resolvedNamespace w.environ
  let cm := resolvedConfigMap w.environ
  let pre : List (Call Config Client) := preamble w.environ
  if !w.OutSideCluster then
    match w.InClusterConfig with
    | .error err =>
      ⟨.error ("error creating kubernetes client config: " ++ err),
        pre ++ [.InClusterConfig]⟩
    | .ok cfg =>
      match w.NewForConfig cfg with
      | .error err =>
        ⟨.error ("error creating kubernetes client: " ++ err),
          pre ++ [.InClusterConfig, .NewForConfig cfg]⟩
      | .ok cl =>
        ⟨.ok ⟨w.newLoadBalancer cl ns cm⟩,
          pre ++ [.InClusterConfig, .NewForConfig cfg, .newLoadBalancer cl ns cm]⟩
  else
    let path := kubeconfigPath w
    match w.BuildConfigFromFlags "" path with
    | .error err =>
      ⟨.panic err, pre ++ [.Getenv "HOME", .BuildConfigFromFlags "" path]⟩
    | .ok config =>
      match w.NewForConfig config with
      | .error err =>
        ⟨.error ("error creating kubernetes client: " ++ err),
          pre ++ [.Getenv "HOME", .BuildConfigFromFlags "" path, .NewForConfig config]⟩
      | .ok cl =>
        ⟨.ok ⟨w.newLoadBalancer cl ns cm⟩,
          pre ++ [.Getenv "HOME", .BuildConfigFromFlags "" path, .NewForConfig config,
            .newLoadBalancer cl ns cm]⟩

/-- The client configuration the constructor works from: the one source the
flag selects (lines 61-63 and 73-74). -/
def clientConfig {Config Client LB : Type} (w : World Config Client LB) :
    Except String Config :=
  if !w.OutSideCluster then w.InClusterConfig
  else w.BuildConfigFromFlags "" (kubeconfigPath w)

/-! ## `init` (lines 35-37) -/

/-- `init`: one call of `cloudprovider.RegisterCloudProvider`, which is passed
in as `RegisterCloudProvider` and acts on the registry `σ`. -/
def init {Config Client LB Reader σ : Type}
    (RegisterCloudProvider : String →
      (World Config Client LB → Reader → Run Config Client (KubeVipCloudProvider LB)) →
      σ → σ)
    (registry : σ) : σ :=
  RegisterCloudProvider ProviderName newKubeVipCloudProvider registry

/-! ## Methods (lines 89-112) -/

/-- What a call of `Initialize` leaves behind: the provider after the call,
whether the call ran to its end (it does not when `ClientOrDie` dies), and the
calls made. -/
structure InitRun (Config Client LB : Type) where
  provider : KubeVipCloudProvider LB
  completed : Bool
  calls : List (Call Config Client)

/-- `(p *KubeVipCloudProvider) Initialize(clientBuilder, _ <-chan struct{})`.
`ClientOrDie` is the builder's method: `none` when it dies. -/
def KubeVipCloudProvider.Initialize {Config Client LB : Type}
    (p : KubeVipCloudProvider LB) (ClientOrDie : String → Option Client)
    (_ : StopCh) : InitRun Config Client LB :=
  let log : List (Call Config Client) :=
    [.Info "Initing Kube-vip Cloud Provider", .ClientOrDie "do-shared-informers"]
  match ClientOrDie "do-shared-informers" with
  | none => ⟨p, false, log⟩
  | some clientset =>
    ⟨p, true,
      log ++ [.NewSharedInformerFactory clientset 0, .Start none, .WaitForCacheSync none]⟩

/-- `(p *KubeVipCloudProvider) LoadBalancer()`. -/
def KubeVipCloudProvider.LoadBalancer {LB : Type} (p : KubeVipCloudProvider LB) :
    Option LB × Bool :=
  (p.lb, true)

/-- `(p *KubeVipCloudProvider) ProviderName()`. -/
def KubeVipCloudProvider.ProviderName {LB : Type} (_ : KubeVipCloudProvider LB) : String :=
  Provider.ProviderName

/-! ## Reading a call log -/

/-- The names a run reports on line 58: the two arguments of its `klog.Infof`
call, config-map name first. -/
def loggedNames {Config Client : Type} (calls : List (Call Config Client)) :
    Option (String × String) :=
  calls.findSome? fun
    | .Infof _ [cm, ns] => some (cm, ns)
    | _ => none

/-- Whether a call asks for client credentials: the in-cluster configuration
or a kubeconfig file. -/
def Call.isCredentialSource {Config Client : Type} : Call Config Client → Bool
  | .InClusterConfig => true
  | .BuildConfigFromFlags _ _ => true
  | _ => false

/-- Whether a call registers an informer or an event handler. -/
def Call.isWatcher {Config Client : Type} : Call Config Client → Bool
  | .Informer _ => true
  | .AddEventHandler _ => true
  | _ => false

/-! ## The load balancer behind `newLoadBalancer`

`newLoadBalancer` and the load balancer it builds live in another file of the
package.  The definitions of this section follow sections 3, 4.2, 4.3 and 4.5
of the design document instead: the allocation table with its two indexes, and
the `ensure` and `delete` operations of the adapter.  Addresses are natural
numbers (an IPv4 address read as a number), so that "lowest" has a meaning. -/

/-- Modelled from the spec: an address, of the missing load-balancer file,
as a number so that addresses are ordered. -/
abbrev Address := Nat

/-- Modelled from the spec: the missing `serviceKey`, "stable identity of the
service (namespace + name)". -/
structure ServiceKey where
  ns : String
  name : String
deriving DecidableEq

/-- Modelled from the spec: the missing pool `scope`, "either global or bound
to one namespace". -/
inductive Scope where
  | global
  | namespaced (ns : String)
deriving DecidableEq

/-- Modelled from the spec: one address range of a missing pool, both ends
included. -/
structure Range where
  lo : Address
  hi : Address

/-- Modelled from the spec: the missing `Pool`, with `name`, `scope` and the
"ordered sequence of address ranges". -/
structure Pool where
  name : String
  scope : Scope
  ranges : List Range

/-- Modelled from the spec: the missing `Allocation`, with `serviceKey`,
`pool` ("name of the pool the address was drawn from"), `address` and
`boundAt` ("logical version/generation"). -/
structure Allocation where
  serviceKey : ServiceKey
  pool : String
  address : Address
  boundAt : Nat
deriving DecidableEq

/-- Modelled from the spec: the missing `AllocationError` with its three
variants. -/
inductive AllocationError where
  | AddressInUse
  | AddressOutOfRange
  | PoolExhausted
deriving DecidableEq

/-- Modelled from the spec: the missing Allocation Table, "mapping from
`serviceKey` to zero-or-one Allocation, and the reverse index: mapping from
(pool, address) to the holding `serviceKey`".  `generation` is the logical
clock `boundAt` is read from; the design document names the field and not its
source. -/
structure AllocationTable where
  forward : ServiceKey → Option Allocation
  reverse : String × Address → Option ServiceKey
  generation : Nat

/-- Modelled from the spec: the missing table as it is before any call, with
no allocation. -/
def AllocationTable.empty : AllocationTable :=
  ⟨fun _ => none, fun _ => none, 0⟩

/-- Modelled from the spec: the missing `lookup(serviceKey) ->
Option<Allocation>`. -/
def AllocationTable.lookup (t : AllocationTable) (key : ServiceKey) : Option Allocation :=
  t.forward key

/-- Modelled from the spec: the addresses of one range of a missing pool,
lowest first. -/
def Range.addresses (r : Range) : List Address :=
  List.range' r.lo (r.hi + 1 - r.lo)

/-- Modelled from the spec: the addresses of a missing pool, "ranges
considered in declaration order", lowest first within a range. -/
def Pool.addresses (p : Pool) : List Address :=
  (p.ranges.map Range.addresses).flatten

/-- Modelled from the spec: whether an address is "in any range of" the
missing pool. -/
def Pool.contains (p : Pool) (a : Address) : Bool :=
  p.ranges.any fun r => decide (r.lo ≤ a) && decide (a ≤ r.hi)

/-- Modelled from the spec: the missing `release(serviceKey) ->
Option<Allocation>`; "releasing a service with no current allocation is a
no-op", and a release takes the allocation out of both indexes. -/
def AllocationTable.release (t : AllocationTable) (key : ServiceKey) :
    Option Allocation × AllocationTable :=
  match t.forward key with
  | none => (none, t)
  | some a =>
    (some a,
      { forward := fun k => if k = key then none else t.forward k
        reverse := fun pa => if pa = (a.pool, a.address) then none else t.reverse pa
        generation := t.generation })

/-- Modelled from the spec: the missing insert step of `allocate`, "every
insert/delete updates both sides atomically".  The table holds at most one
allocation for a service, so an allocation the service already has leaves
both indexes before the new one enters them. -/
def AllocationTable.insert (t : AllocationTable) (key : ServiceKey) (pool : String)
    (a : Address) : Except AllocationError Allocation × AllocationTable :=
  let t1 := (t.release key).2
  let al : Allocation := ⟨key, pool, a, t.generation + 1⟩
  (.ok al,
    { forward := fun k => if k = key then some al else t1.forward k
      reverse := fun pa => if pa = (pool, a) then some key else t1.reverse pa
      generation := t.generation + 1 })

/-- Modelled from the spec: whether the missing reverse index has the address
"already held by a different service". -/
def AllocationTable.heldByOther (t : AllocationTable) (key : ServiceKey) (pool : String)
    (a : Address) : Bool :=
  match t.reverse (pool, a) with
  | some holder => decide (holder ≠ key)
  | none => false

/-- Modelled from the spec: the missing `allocate(serviceKey, pool,
requestedAddress?)`.  With a requested address it binds exactly that address,
and "fails with `AddressInUse` if already held by a different service,
`AddressOutOfRange` if not in any range of `pool`"; with none it picks "the
lowest unallocated address in the pool's ranges in range order" and "fails
with `PoolExhausted` if none free".  A failure leaves the table as it was. -/
def AllocationTable.allocate (t : AllocationTable) (key : ServiceKey) (pool : Pool)
    (requested : Option Address) : Except AllocationError Allocation × AllocationTable :=
  match requested with
  | some a =>
    if t.heldByOther key pool.name a then (.error .AddressInUse, t)
    else if !pool.contains a then (.error .AddressOutOfRange, t)
    else t.insert key pool.name a
  | none =>
    match pool.addresses.find? (fun a => (t.reverse (pool.name, a)).isNone) with
    | none => (.error .PoolExhausted, t)
    | some a => t.insert key pool.name a

/-- Modelled from the spec: one call on the missing Allocation Table. -/
inductive TableCall where
  | allocate (key : ServiceKey) (pool : Pool) (requested : Option Address)
  | release (key : ServiceKey)

/-- Modelled from the spec: the missing table after one call. -/
def AllocationTable.step (t : AllocationTable) : TableCall → AllocationTable
  | .allocate key pool requested => (t.allocate key pool requested).2
  | .release key => (t.release key).2

/-- Modelled from the spec: the missing table after a sequence of calls. -/
def AllocationTable.run (t : AllocationTable) (calls : List TableCall) : AllocationTable :=
  calls.foldl AllocationTable.step t

/-- Modelled from the spec: the at-most-one-holder property of the missing
table, as `lookup` reports it: two services whose allocations name the same
pool and address are the same service. -/
def AllocationTable.AtMostOneHolder (t : AllocationTable) : Prop :=
  ∀ k₁ k₂ a₁ a₂, t.lookup k₁ = some a₁ → t.lookup k₂ = some a₂ →
    a₁.pool = a₂.pool → a₁.address = a₂.address → k₁ = k₂

/-- Modelled from the spec: the forward index of the missing table is
mirrored in the reverse index ("kept mutually consistent"). -/
def AllocationTable.Consistent (t : AllocationTable) : Prop :=
  ∀ k a, t.forward k = some a → t.reverse (a.pool, a.address) = some k

/-- Modelled from the spec: the missing "desired address family" of a service
exposure object. -/
inductive AddressFamily where
  | ipv4
  | ipv6
deriving DecidableEq

/-- Modelled from the spec: the missing service exposure request, "namespace,
name, desired address family, optional pinned address". -/
structure ServiceSpec where
  ns : String
  name : String
  family : AddressFamily
  pinned : Option Address

/-- Modelled from the spec: the key of a missing service spec. -/
def ServiceSpec.key (s : ServiceSpec) : ServiceKey := ⟨s.ns, s.name⟩

/-- Modelled from the spec: the missing load balancer that `newLoadBalancer`
builds: the client and the two names it is given, the current pool snapshot
and the allocation table. -/
structure LoadBalancerManager (Client : Type) where
  client : Client
  ns : String
  cm : String
  pools : List Pool
  table : AllocationTable

/-- Modelled from the spec: the missing `newLoadBalancer(cl, ns, cm)`; the
in-memory table of a new load balancer holds nothing and no pool snapshot has
been loaded. -/
def newLoadBalancer {Client : Type} (cl : Client) (ns cm : String) :
    LoadBalancerManager Client :=
  ⟨cl, ns, cm, [], AllocationTable.empty⟩

/-- Modelled from the spec: the missing pool resolution of the Reconciler,
"by namespace scope, falling back to a global default pool when no
 namespace-scoped pool exists". -/
def resolvePool (pools : List Pool) (ns : String) : Option Pool :=
  match pools.find? (fun p => decide (p.scope = .namespaced ns)) with
  | some p => some p
  | none => pools.find? (fun p => decide (p.scope = .global))

/-- Modelled from the spec: the errors of the missing adapter: an allocation
error, or no pool to allocate from. -/
inductive EnsureError where
  | allocation (e : AllocationError)
  | noPool
deriving DecidableEq

/-- Modelled from the spec: the missing `ensure(serviceSpec)`, which "returns
the currently bound address(es), allocating if absent". -/
def LoadBalancerManager.ensure {Client : Type} (lb : LoadBalancerManager Client)
    (spec : ServiceSpec) : Except EnsureError (List Address) × LoadBalancerManager Client :=
  match lb.table.lookup spec.key with
  | some a => (.ok [a.address], lb)
  | none =>
    match resolvePool lb.pools spec.ns with
    | none => (.error .noPool, lb)
    | some pool =>
      match lb.table.allocate spec.key pool spec.pinned with
      | (.ok a, t) => (.ok [a.address], { lb with table := t })
      | (.error e, _) => (.error (.allocation e), lb)

/-- Modelled from the spec: the missing `delete(serviceKey)`, which "always
succeeds if the service had no allocation; otherwise releases it". -/
def LoadBalancerManager.delete {Client : Type} (lb : LoadBalancerManager Client)
    (key : ServiceKey) : LoadBalancerManager Client :=
  { lb with table := (lb.table.release key).2 }

/-- Modelled from the spec: one call of the host runtime on the missing
adapter. -/
inductive AdapterCall where
  | ensure (spec : ServiceSpec)
  | delete (key : ServiceKey)

/-- Modelled from the spec: the missing load balancer after one call. -/
def LoadBalancerManager.step {Client : Type} (lb : LoadBalancerManager Client) :
    AdapterCall → LoadBalancerManager Client
  | .ensure spec => (lb.ensure spec).2
  | .delete key => lb.delete key

/-- Modelled from the spec: the missing load balancer after a sequence of
calls. -/
def LoadBalancerManager.run {Client : Type} (lb : LoadBalancerManager Client)
    (calls : List AdapterCall) : LoadBalancerManager Client :=
  calls.foldl LoadBalancerManager.step lb

/-! ## Sample inputs -/

/-- A world in which every outside call succeeds: a configuration is the name
of its source, a client is the configuration it was made from, and the load
balancer is the one of the section above. -/
def sampleWorld (outside : Bool) (environ : String → Option String) :
    World String String (LoadBalancerManager String) where
  OutSideCluster := outside
  environ := environ
  InClusterConfig := .ok "in-cluster"
  BuildConfigFromFlags := fun _ path => .ok path
  NewForConfig := fun cfg => .ok cfg
  Join := fun elems => "/".intercalate elems
  newLoadBalancer := fun cl ns cm => some (newLoadBalancer cl ns cm)

/-- An environment that sets the two overrides and `HOME`. -/
def sampleEnviron : String → Option String := fun key =>
  if key = "KUBEVIP_CONFIG_MAP" then some "pools"
  else if key = "KUBEVIP_NAMESPACE" then some "lb-system"
  else if key = "HOME" then some "/root"
  else none

/-- The pool of the scenario of section 8 of the design document: `web`,
global, with the two addresses 1 and 2. -/
def webPool : Pool := ⟨"web", .global, [⟨1, 2⟩]⟩

/-- A load balancer as `newLoadBalancer` builds it, after the pool snapshot
with the one pool `web` has been loaded. -/
def sampleLoadBalancer : LoadBalancerManager String :=
  { newLoadBalancer "in-cluster" "kube-system" "kubevip" with pools := [webPool] }

/-- The service `default/svc-a`, `default/svc-b`, ... of the scenario, asking
for an IPv4 address and pinning none. -/
def sampleSpec (name : String) : ServiceSpec := ⟨"default", name, .ipv4, none⟩

end Provider

namespace Provider

/-! ## Lemmas on `newKubeVipCloudProvider` -/

section Constructor

variable {Config Client LB Reader : Type}

theorem getenv_eq_empty_iff (environ : String → Option String) (key : String) :
    Getenv environ key = "" ↔ environ key = none ∨ environ key = some "" := by
  unfold Getenv
  cases h : environ key <;> simp

theorem getenv_of_some (environ : String → Option String) (key v : String)
    (h : environ key = some v) : Getenv environ key = v := by
  simp [Getenv, h]

/-- On success the load balancer is built from the client of the selected
configuration and the two resolved names. -/
theorem newKubeVipCloudProvider_ok (w : World Config Client LB) (r : Reader)
    (p : KubeVipCloudProvider LB) (h : (newKubeVipCloudProvider w r).result = .ok p) :
    ∃ cfg cl, clientConfig w = .ok cfg ∧ w.NewForConfig cfg = .ok cl ∧
      p.lb = w.newLoadBalancer cl (resolvedNamespace w.environ)
        (resolvedConfigMap w.environ) ∧
      Call.newLoadBalancer cl (resolvedNamespace w.environ) (resolvedConfigMap w.environ)
        ∈ (newKubeVipCloudProvider w r).calls := by
  unfold newKubeVipCloudProvider clientConfig at *
  cases hflag : w.OutSideCluster <;> simp only [hflag, Bool.not_false, Bool.not_true,
    if_true, if_false, Bool.false_eq_true] at h ⊢
  · cases hc : w.InClusterConfig with
    | error e => simp [hc] at h
    | ok cfg =>
      cases hn : w.NewForConfig cfg with
      | error e => simp [hc, hn] at h
      | ok cl =>
        simp only [hc, hn, Outcome.ok.injEq] at h
        exact ⟨cfg, cl, rfl, hn, by rw [← h], by simp [hc, hn]⟩
  · cases hc : w.BuildConfigFromFlags "" (kubeconfigPath w) with
    | error e => simp [hc] at h
    | ok cfg =>
      cases hn : w.NewForConfig cfg with
      | error e => simp [hc, hn] at h
      | ok cl =>
        simp only [hc, hn, Outcome.ok.injEq] at h
        exact ⟨cfg, cl, rfl, hn, by rw [← h], by simp [hc, hn]⟩

/-- Every run starts with the calls of lines 47-58. -/
theorem newKubeVipCloudProvider_calls (w : World Config Client LB) (r : Reader) :
    ∃ rest, (newKubeVipCloudProvider w r).calls = preamble w.environ ++ rest ∧
      loggedNames rest = none := by
  unfold newKubeVipCloudProvider
  cases w.OutSideCluster <;> simp only [Bool.not_false, Bool.not_true, if_true, if_false,
    Bool.false_eq_true]
  · cases hc : w.InClusterConfig with
    | error e => exact ⟨_, rfl, rfl⟩
    | ok cfg =>
      cases hn : w.NewForConfig cfg with
      | error e => simp only [hn]; exact ⟨_, rfl, rfl⟩
      | ok cl => simp only [hn]; exact ⟨_, rfl, rfl⟩
  · cases hc : w.BuildConfigFromFlags "" (kubeconfigPath w) with
    | error e => exact ⟨_, rfl, rfl⟩
    | ok cfg =>
      cases hn : w.NewForConfig cfg with
      | error e => simp only [hn]; exact ⟨_, rfl, rfl⟩
      | ok cl => simp only [hn]; exact ⟨_, rfl, rfl⟩

/-- The names a run logs are the two resolved names. -/
theorem loggedNames_newKubeVipCloudProvider (w : World Config Client LB) (r : Reader) :
    loggedNames (newKubeVipCloudProvider w r).calls =
      some (resolvedConfigMap w.environ, resolvedNamespace w.environ) := by
  obtain ⟨rest, h, _⟩ := newKubeVipCloudProvider_calls w r
  rw [h]
  simp [loggedNames, preamble, List.findSome?]

end Constructor

end Provider

namespace Provider

/-! ## The constructor: names and credentials -/

section ConstructorClaims

variable {Config Client LB Reader : Type}

/-- C1. When `KUBEVIP_CONFIG_MAP` is unset or empty the config-map name
resolves to "kubevip"; when `KUBEVIP_NAMESPACE` is unset or empty the namespace
resolves to "kube-system"; the resolved names are the ones the run logs; and
on success the provider's load balancer is `newLoadBalancer(cl, ns, cm)` for
the client `cl` made from the selected configuration and the resolved `ns` and
`cm`, in that argument order. -/
theorem newKubeVipCloudProvider_default_names (w : World Config Client LB) (r : Reader) :
    ((w.environ "KUBEVIP_CONFIG_MAP" = none ∨ w.environ "KUBEVIP_CONFIG_MAP" = some "") →
      resolvedConfigMap w.environ = "kubevip") ∧
    ((w.environ "KUBEVIP_NAMESPACE" = none ∨ w.environ "KUBEVIP_NAMESPACE" = some "") →
      resolvedNamespace w.environ = "kube-system") ∧
    loggedNames (newKubeVipCloudProvider w r).calls =
      some (resolvedConfigMap w.environ, resolvedNamespace w.environ) ∧
    ∀ p, (newKubeVipCloudProvider w r).result = .ok p →
      ∃ cfg cl, clientConfig w = .ok cfg ∧ w.NewForConfig cfg = .ok cl ∧
        p.lb = w.newLoadBalancer cl (resolvedNamespace w.environ)
          (resolvedConfigMap w.environ) := by
  refine ⟨fun h => ?_, fun h => ?_, loggedNames_newKubeVipCloudProvider w r, fun p hp => ?_⟩
  · have := (getenv_eq_empty_iff w.environ "KUBEVIP_CONFIG_MAP").2 h
    simp [resolvedConfigMap, this, KubeVipClientConfig]
  · have := (getenv_eq_empty_iff w.environ "KUBEVIP_NAMESPACE").2 h
    simp [resolvedNamespace, this, KubeVipClientConfigNamespace]
  · obtain ⟨cfg, cl, h₁, h₂, h₃, _⟩ := newKubeVipCloudProvider_ok w r p hp
    exact ⟨cfg, cl, h₁, h₂, h₃⟩

/-- C1 at a world with an empty environment, inside the cluster: both names
take their defaults and the load balancer is built from them. -/
theorem newKubeVipCloudProvider_default_names_witness :
    resolvedConfigMap (sampleWorld false fun _ => none).environ = "kubevip" ∧
    resolvedNamespace (sampleWorld false fun _ => none).environ = "kube-system" ∧
    ∃ cfg cl, clientConfig (sampleWorld false fun _ => none) = .ok cfg ∧
      (sampleWorld false fun _ => none).NewForConfig cfg = .ok cl ∧
      (some (newLoadBalancer "in-cluster" "kube-system" "kubevip") :
          Option (LoadBalancerManager String)) =
        (sampleWorld false fun _ => none).newLoadBalancer cl
          (resolvedNamespace (sampleWorld false fun _ => none).environ)
          (resolvedConfigMap (sampleWorld false fun _ => none).environ) :=
  have h := newKubeVipCloudProvider_default_names (sampleWorld false fun _ => none) ()
  ⟨h.1 (Or.inl rfl), h.2.1 (Or.inl rfl), h.2.2.2 ⟨some (newLoadBalancer "in-cluster"
    "kube-system" "kubevip")⟩ rfl⟩

/-- C2. A non-empty `KUBEVIP_CONFIG_MAP` is used unchanged as the config-map
name (it is the name logged and the name handed to `newLoadBalancer`), and a
non-empty `KUBEVIP_NAMESPACE` unchanged as the namespace; the name a run uses
is the same in any two worlds that agree on `KUBEVIP_CONFIG_MAP`, and
the namespace the same in any two worlds that agree on `KUBEVIP_NAMESPACE`,
whatever else differs, the flag `OutSideCluster` included. -/
theorem newKubeVipCloudProvider_override_names (w : World Config Client LB) (r : Reader) :
    (∀ v, w.environ "KUBEVIP_CONFIG_MAP" = some v → v ≠ "" →
      resolvedConfigMap w.environ = v ∧
      (loggedNames (newKubeVipCloudProvider w r).calls).map Prod.fst = some v ∧
      ∀ p, (newKubeVipCloudProvider w r).result = .ok p →
        ∃ cl ns, p.lb = w.newLoadBalancer cl ns v) ∧
    (∀ v, w.environ "KUBEVIP_NAMESPACE" = some v → v ≠ "" →
      resolvedNamespace w.environ = v ∧
      (loggedNames (newKubeVipCloudProvider w r).calls).map Prod.snd = some v ∧
      ∀ p, (newKubeVipCloudProvider w r).result = .ok p →
        ∃ cl cm, p.lb = w.newLoadBalancer cl v cm) ∧
    (∀ (w' : World Config Client LB) (r' : Reader),
      w'.environ "KUBEVIP_CONFIG_MAP" = w.environ "KUBEVIP_CONFIG_MAP" →
      (loggedNames (newKubeVipCloudProvider w' r').calls).map Prod.fst =
        (loggedNames (newKubeVipCloudProvider w r).calls).map Prod.fst) ∧
    (∀ (w' : World Config Client LB) (r' : Reader),
      w'.environ "KUBEVIP_NAMESPACE" = w.environ "KUBEVIP_NAMESPACE" →
      (loggedNames (newKubeVipCloudProvider w' r').calls).map Prod.snd =
        (loggedNames (newKubeVipCloudProvider w r).calls).map Prod.snd) := by
  refine ⟨fun v hv hne => ?_, fun v hv hne => ?_, fun w' r' h => ?_, fun w' r' h => ?_⟩
  · have hcm : resolvedConfigMap w.environ = v := by
      simp [resolvedConfigMap, getenv_of_some _ _ _ hv, hne]
    refine ⟨hcm, by simp [loggedNames_newKubeVipCloudProvider, hcm], fun p hp => ?_⟩
    obtain ⟨_, cl, _, _, h₃, _⟩ := newKubeVipCloudProvider_ok w r p hp
    exact ⟨cl, _, hcm ▸ h₃⟩
  · have hns : resolvedNamespace w.environ = v := by
      simp [resolvedNamespace, getenv_of_some _ _ _ hv, hne]
    refine ⟨hns, by simp [loggedNames_newKubeVipCloudProvider, hns], fun p hp => ?_⟩
    obtain ⟨_, cl, _, _, h₃, _⟩ := newKubeVipCloudProvider_ok w r p hp
    exact ⟨cl, _, hns ▸ h₃⟩
  · simp [loggedNames_newKubeVipCloudProvider, resolvedConfigMap, Getenv, h]
  · simp [loggedNames_newKubeVipCloudProvider, resolvedNamespace, Getenv, h]

/-- C2 at a world whose environment sets both overrides, outside the cluster:
the two values are the names the run logs, config map first and then the
namespace. -/
theorem newKubeVipCloudProvider_override_names_witness :
    (loggedNames (newKubeVipCloudProvider
        (sampleWorld true sampleEnviron) ()).calls).map Prod.fst = some "pools" ∧
    (loggedNames (newKubeVipCloudProvider
        (sampleWorld true sampleEnviron) ()).calls).map Prod.snd = some "lb-system" :=
  have h := newKubeVipCloudProvider_override_names (sampleWorld true sampleEnviron) ()
  ⟨(h.1 "pools" rfl (by decide)).2.1, (h.2.1 "lb-system" rfl (by decide)).2.1⟩

/-- C7. The flag alone selects the credential source.  When `OutSideCluster`
is true the one credential call of a run is `BuildConfigFromFlags` with an
empty master URL and the path `Join(HOME, ".kube", "config")`, and every
configuration a client is made from is its result; when it is false the one
credential call is `InClusterConfig`, and every configuration a client is made
from is its result. -/
theorem OutSideCluster_selects_credential_source (w : World Config Client LB) (r : Reader) :
    (w.OutSideCluster = true →
      (newKubeVipCloudProvider w r).calls.filter Call.isCredentialSource =
        [.BuildConfigFromFlags "" (w.Join [Getenv w.environ "HOME", ".kube", "config"])] ∧
      ∀ cfg, Call.NewForConfig cfg ∈ (newKubeVipCloudProvider w r).calls →
        w.BuildConfigFromFlags "" (w.Join [Getenv w.environ "HOME", ".kube", "config"]) =
          .ok cfg) ∧
    (w.OutSideCluster = false →
      (newKubeVipCloudProvider w r).calls.filter Call.isCredentialSource =
        [.InClusterConfig] ∧
      ∀ cfg, Call.NewForConfig cfg ∈ (newKubeVipCloudProvider w r).calls →
        w.InClusterConfig = .ok cfg) := by
  constructor
  · intro hflag
    unfold newKubeVipCloudProvider
    simp only [hflag, Bool.not_true, if_false, Bool.false_eq_true]
    cases hc : w.BuildConfigFromFlags "" (kubeconfigPath w) with
    | error e =>
      simp only [kubeconfigPath] at hc
      simp [hc, preamble, Call.isCredentialSource, List.filter, kubeconfigPath]
    | ok cfg =>
      simp only [kubeconfigPath] at hc
      cases hn : w.NewForConfig cfg <;>
        simp [hc, hn, preamble, Call.isCredentialSource, List.filter, kubeconfigPath]
  · intro hflag
    unfold newKubeVipCloudProvider
    simp only [hflag, Bool.not_false, if_true]
    cases hc : w.InClusterConfig with
    | error e => simp [preamble, Call.isCredentialSource, List.filter]
    | ok cfg =>
      cases hn : w.NewForConfig cfg <;>
        simp [hn, preamble, Call.isCredentialSource, List.filter]

/-- C7 at the sample world outside the cluster with `HOME=/root`: the one
credential call reads `/root/.kube/config` with an empty master URL. -/
theorem OutSideCluster_selects_credential_source_witness :
    (newKubeVipCloudProvider (sampleWorld true sampleEnviron) ()).calls.filter
        Call.isCredentialSource =
      [.BuildConfigFromFlags "" "/root/.kube/config"] :=
  ((OutSideCluster_selects_credential_source (sampleWorld true sampleEnviron) ()).1 rfl).1

end ConstructorClaims

/-! ## The methods of the provider -/

section MethodClaims

variable {Config Client LB Reader : Type}

/-- C3, as amended. For every provider `p`, `LoadBalancer(p)` returns the
load-balancer interface stored in `p` unchanged together with the flag `true`,
whether or not `p` holds a load balancer. -/
theorem LoadBalancer_returns_lb_and_true (p : KubeVipCloudProvider LB) :
    p.LoadBalancer = (p.lb, true) ∧ p.LoadBalancer.1 = p.lb ∧ p.LoadBalancer.2 = true :=
  ⟨rfl, rfl, rfl⟩

/-- C3 as stated fails at the zero-value provider: it holds no load balancer
(`lb` is nil) and its flag is `true`, so the flag is not "true exactly when
`p.lb` is non-nil". -/
theorem LoadBalancer_flag_true_without_lb :
    ¬ (((⟨none⟩ : KubeVipCloudProvider Unit).LoadBalancer.2 = true) ↔
      ((⟨none⟩ : KubeVipCloudProvider Unit).lb ≠ none)) := by
  simp [KubeVipCloudProvider.LoadBalancer]

/-- C4. For every provider `p`, the zero value included, `ProviderName(p)` is
the constant "kubevip"; it is the same for any two providers; and it is the
name under which `init` registers `newKubeVipCloudProvider`. -/
theorem ProviderName_is_registered_name (p : KubeVipCloudProvider LB) :
    p.ProviderName = "kubevip" ∧
    (⟨none⟩ : KubeVipCloudProvider LB).ProviderName = "kubevip" ∧
    (∀ q : KubeVipCloudProvider LB, q.ProviderName = p.ProviderName) ∧
    ∀ (σ : Type)
      (register : String →
        (World Config Client LB → Reader → Run Config Client (KubeVipCloudProvider LB)) →
        σ → σ)
      (registry : σ),
      init register registry = register p.ProviderName newKubeVipCloudProvider registry :=
  ⟨rfl, rfl, fun _ => rfl, fun _ _ _ => rfl⟩

/-- C8. `Initialize` leaves the provider as it was, so `LoadBalancer` and
`ProviderName` answer as before; when the client builder returns a client the
call runs to its end and makes exactly the calls `Info`, `ClientOrDie`,
`NewSharedInformerFactory(clientset, 0)`, `Start(nil)`, `WaitForCacheSync(nil)`;
no call of any run registers an informer or an event handler; and the run is
the same for every stop channel. -/
theorem Initialize_frames_provider (p : KubeVipCloudProvider LB)
    (ClientOrDie : String → Option Client) (stop : StopCh) :
    (p.Initialize ClientOrDie stop : InitRun Config Client LB).provider = p ∧
    (p.Initialize ClientOrDie stop : InitRun Config Client LB).provider.LoadBalancer =
      p.LoadBalancer ∧
    (p.Initialize ClientOrDie stop : InitRun Config Client LB).provider.ProviderName =
      p.ProviderName ∧
    (∀ clientset, ClientOrDie "do-shared-informers" = some clientset →
      (p.Initialize ClientOrDie stop : InitRun Config Client LB).completed = true ∧
      (p.Initialize ClientOrDie stop : InitRun Config Client LB).calls =
        [.Info "Initing Kube-vip Cloud Provider", .ClientOrDie "do-shared-informers",
          .NewSharedInformerFactory clientset 0, .Start none, .WaitForCacheSync none]) ∧
    (∀ c ∈ (p.Initialize ClientOrDie stop : InitRun Config Client LB).calls, c.isWatcher = false) ∧
    ∀ stop' : StopCh,
      (p.Initialize ClientOrDie stop' : InitRun Config Client LB) =
        p.Initialize ClientOrDie stop := by
  unfold KubeVipCloudProvider.Initialize
  cases h : ClientOrDie "do-shared-informers" <;> simp [Call.isWatcher]

/-- C8 at a provider with no load balancer, a builder that returns the client
7 and the stop channel 3: the calls of the run, none of which mentions the
channel. -/
theorem Initialize_frames_provider_witness :
    (KubeVipCloudProvider.Initialize (⟨none⟩ : KubeVipCloudProvider Unit)
        (fun _ => some (7 : Nat)) (some 3) : InitRun Unit Nat Unit).calls =
      [.Info "Initing Kube-vip Cloud Provider", .ClientOrDie "do-shared-informers",
        .NewSharedInformerFactory 7 0, .Start none, .WaitForCacheSync none] :=
  ((@Initialize_frames_provider Unit Nat Unit ⟨none⟩
    (fun _ => some (7 : Nat)) (some 3)).2.2.2.1 7 rfl).2

end MethodClaims

/-! ## The allocation table: both indexes stay consistent -/

namespace AllocationTable

theorem release_forward (t : AllocationTable) (key k : ServiceKey) :
    (t.release key).2.forward k = if k = key then none else t.forward k := by
  unfold release
  cases h : t.forward key with
  | none =>
    by_cases hk : k = key
    · simp [hk, h]
    · simp [hk]
  | some a => rfl

theorem release_reverse_of_some (t : AllocationTable) (key k : ServiceKey)
    (pa : String × Address) (h : (t.release key).2.reverse pa = some k) :
    t.reverse pa = some k := by
  unfold release at h
  cases hf : t.forward key with
  | none => simpa [hf] using h
  | some a =>
    simp only [hf] at h
    by_cases hp : pa = (a.pool, a.address)
    · simp [hp] at h
    · simpa [hp] using h

theorem release_reverse_of_ne (t : AllocationTable) (key : ServiceKey)
    (pa : String × Address)
    (h : ∀ a, t.forward key = some a → pa ≠ (a.pool, a.address)) :
    (t.release key).2.reverse pa = t.reverse pa := by
  unfold release
  cases hf : t.forward key with
  | none => rfl
  | some a => simp [h a hf]

theorem empty_consistent : Consistent empty := by
  intro k a h
  simp [empty] at h

theorem release_consistent (t : AllocationTable) (key : ServiceKey) (ht : t.Consistent) :
    (t.release key).2.Consistent := by
  intro k al h
  rw [release_forward] at h
  by_cases hk : k = key
  · simp [hk] at h
  · simp only [hk, if_false] at h
    rw [release_reverse_of_ne]
    · exact ht k al h
    · intro a ha heq
      have h₁ := ht key a ha
      have h₂ := ht k al h
      rw [heq, h₁] at h₂
      exact hk (Option.some.inj h₂).symm

theorem insert_consistent (t : AllocationTable) (key : ServiceKey) (pool : String)
    (a : Address) (ht : t.Consistent) (hfree : t.heldByOther key pool a = false) :
    (t.insert key pool a).2.Consistent := by
  intro k al h
  have ht₁ := release_consistent t key ht
  simp only [insert] at h ⊢
  by_cases hk : k = key
  · simp only [hk, if_true, Option.some.injEq] at h
    subst h
    simp [hk]
  · simp only [hk, if_false] at h
    have h₁ := ht₁ k al h
    by_cases hp : (al.pool, al.address) = (pool, a)
    · exfalso
      rw [hp] at h₁
      have h₂ := release_reverse_of_some t key k (pool, a) h₁
      simp only [heldByOther, h₂] at hfree
      exact hk (by simpa using hfree)
    · simpa [hp] using h₁

theorem allocate_consistent (t : AllocationTable) (key : ServiceKey) (pool : Pool)
    (requested : Option Address) (ht : t.Consistent) :
    (t.allocate key pool requested).2.Consistent := by
  unfold allocate
  cases requested with
  | some a =>
    simp only
    by_cases h₁ : t.heldByOther key pool.name a = true
    · simpa [h₁] using ht
    · by_cases h₂ : pool.contains a = true
      · simp only [h₁, h₂, if_false, Bool.not_true, Bool.false_eq_true]
        exact insert_consistent t key pool.name a ht (by simpa using h₁)
      · simpa [h₁, h₂] using ht
  | none =>
    simp only
    cases hfind : pool.addresses.find? (fun a => (t.reverse (pool.name, a)).isNone) with
    | none => exact ht
    | some a =>
      have hnone := List.find?_some hfind
      apply insert_consistent t key pool.name a ht
      simp only [Option.isNone_iff_eq_none] at hnone
      simp [heldByOther, hnone]

theorem step_consistent (t : AllocationTable) (c : TableCall) (ht : t.Consistent) :
    (t.step c).Consistent := by
  cases c with
  | allocate key pool requested => exact allocate_consistent t key pool requested ht
  | release key => exact release_consistent t key ht

theorem run_consistent (calls : List TableCall) (t : AllocationTable) (ht : t.Consistent) :
    (t.run calls).Consistent := by
  induction calls generalizing t with
  | nil => exact ht
  | cons c rest ih => exact ih (t.step c) (step_consistent t c ht)

theorem atMostOneHolder_of_consistent (t : AllocationTable) (ht : t.Consistent) :
    t.AtMostOneHolder := by
  intro k₁ k₂ a₁ a₂ h₁ h₂ hp ha
  have r₁ := ht k₁ a₁ h₁
  have r₂ := ht k₂ a₂ h₂
  rw [hp, ha, r₂] at r₁
  exact (Option.some.inj r₁).symm

end AllocationTable

/-- C5. Take the load balancer of a provider that `newKubeVipCloudProvider`
has built; its allocation table starts with no allocation.  After every
sequence of `allocate` and `release` calls on that table, two services whose
allocations name the same pool and the same address are the same service: no
(pool, address) pair is bound to two different service keys. -/
theorem allocation_table_at_most_one_holder {Config Client Reader : Type}
    (w : World Config Client (LoadBalancerManager Client)) (r : Reader)
    (p : KubeVipCloudProvider (LoadBalancerManager Client))
    (lb : LoadBalancerManager Client)
    (hnew : ∀ cl ns cm, w.newLoadBalancer cl ns cm = some (newLoadBalancer cl ns cm))
    (hp : (newKubeVipCloudProvider w r).result = .ok p)
    (hlb : p.LoadBalancer.1 = some lb) (calls : List TableCall) :
    (lb.table.run calls).AtMostOneHolder := by
  obtain ⟨_, cl, _, _, h, _⟩ := newKubeVipCloudProvider_ok w r p hp
  have hlb' : p.lb = some lb := hlb
  rw [h, hnew] at hlb'
  have htable : lb.table = AllocationTable.empty := by
    rw [← Option.some.inj hlb']
    rfl
  rw [htable]
  exact AllocationTable.atMostOneHolder_of_consistent _
    (AllocationTable.run_consistent calls _ AllocationTable.empty_consistent)

/-- C5 at the load balancer of the sample world, after `svc-a` and `svc-b`
take the two addresses of `web`, `svc-a` releases, `svc-c` allocates and
`svc-b` asks for the address 1 by name. -/
theorem allocation_table_at_most_one_holder_witness :
    ((newLoadBalancer "in-cluster" "kube-system" "kubevip").table.run
      [.allocate ⟨"default", "svc-a"⟩ webPool none,
        .allocate ⟨"default", "svc-b"⟩ webPool none,
        .release ⟨"default", "svc-a"⟩,
        .allocate ⟨"default", "svc-c"⟩ webPool none,
        .allocate ⟨"default", "svc-b"⟩ webPool (some 1)]).AtMostOneHolder :=
  allocation_table_at_most_one_holder (sampleWorld false fun _ => none) ()
    ⟨some (newLoadBalancer "in-cluster" "kube-system" "kubevip")⟩
    (newLoadBalancer "in-cluster" "kube-system" "kubevip") (fun _ _ _ => rfl) rfl rfl _

/-! ## The adapter: `ensure` -/

namespace AllocationTable

theorem insert_lookup (t : AllocationTable) (key : ServiceKey) (pool : String) (a : Address)
    (al : Allocation) (t' : AllocationTable) (h : t.insert key pool a = (.ok al, t')) :
    t'.lookup key = some al := by
  simp only [insert, Prod.mk.injEq, Except.ok.injEq] at h
  obtain ⟨h₁, h₂⟩ := h
  subst h₂
  simp [lookup, h₁]

theorem allocate_ok_lookup (t : AllocationTable) (key : ServiceKey) (pool : Pool)
    (requested : Option Address) (al : Allocation) (t' : AllocationTable)
    (h : t.allocate key pool requested = (.ok al, t')) : t'.lookup key = some al := by
  unfold allocate at h
  cases requested with
  | some a =>
    simp only at h
    split at h
    · simp at h
    · split at h
      · simp at h
      · exact insert_lookup t key pool.name a al t' h
  | none =>
    simp only at h
    split at h
    · simp at h
    · exact insert_lookup t key pool.name _ al t' h

theorem insert_forward_of_ne (t : AllocationTable) (key k : ServiceKey) (pool : String)
    (a : Address) (hk : k ≠ key) : (t.insert key pool a).2.forward k = t.forward k := by
  simp [insert, hk, release_forward]

theorem allocate_forward_of_ne (t : AllocationTable) (key k : ServiceKey) (pool : Pool)
    (requested : Option Address) (hk : k ≠ key) :
    (t.allocate key pool requested).2.forward k = t.forward k := by
  unfold allocate
  cases requested with
  | some a =>
    simp only
    split
    · rfl
    · split
      · rfl
      · exact insert_forward_of_ne t key k pool.name a hk
  | none =>
    simp only
    split
    · rfl
    · exact insert_forward_of_ne t key k pool.name _ hk

end AllocationTable

namespace LoadBalancerManager

variable {Client : Type}

theorem ensure_of_lookup (lb : LoadBalancerManager Client) (spec : ServiceSpec)
    (a : Allocation) (h : lb.table.lookup spec.key = some a) :
    lb.ensure spec = (.ok [a.address], lb) := by
  simp [ensure, h]

theorem ensure_ok_lookup (lb : LoadBalancerManager Client) (spec : ServiceSpec)
    (addrs : List Address) (h : (lb.ensure spec).1 = .ok addrs) :
    ∃ a, (lb.ensure spec).2.table.lookup spec.key = some a ∧ addrs = [a.address] := by
  unfold ensure at h ⊢
  cases hl : lb.table.lookup spec.key with
  | some a =>
    simp only [hl, Except.ok.injEq] at h ⊢
    exact ⟨a, rfl, h.symm⟩
  | none =>
    simp only [hl] at h ⊢
    cases hr : resolvePool lb.pools spec.ns with
    | none => simp [hr] at h
    | some pool =>
      simp only [hr] at h ⊢
      rcases hal : lb.table.allocate spec.key pool spec.pinned with ⟨res, t'⟩
      cases res with
      | error e => simp [hal] at h
      | ok al =>
        simp only [hal, Except.ok.injEq] at h ⊢
        exact ⟨al, AllocationTable.allocate_ok_lookup _ _ _ _ _ _ hal, h.symm⟩

theorem ensure_twice (lb : LoadBalancerManager Client) (spec : ServiceSpec) :
    (lb.ensure spec).2.ensure spec = lb.ensure spec := by
  cases hres : (lb.ensure spec).1 with
  | ok addrs =>
    obtain ⟨a, ha, haddrs⟩ := ensure_ok_lookup lb spec addrs hres
    rw [ensure_of_lookup _ spec a ha, ← haddrs, ← hres]
  | error e =>
    have hstate : (lb.ensure spec).2 = lb := by
      unfold ensure at hres ⊢
      cases hl : lb.table.lookup spec.key with
      | some a => simp [hl]
      | none =>
        simp only [hl] at hres ⊢
        cases hr : resolvePool lb.pools spec.ns with
        | none => simp [hr]
        | some pool =>
          simp only [hr] at hres ⊢
          rcases hal : lb.table.allocate spec.key pool spec.pinned with ⟨res, t'⟩
          cases res with
          | error e => simp [hal]
          | ok al => simp [hal] at hres
    rw [hstate]

theorem ensure_lookup_of_ne (lb : LoadBalancerManager Client) (spec : ServiceSpec)
    (k : ServiceKey) (hk : k ≠ spec.key) :
    (lb.ensure spec).2.table.lookup k = lb.table.lookup k := by
  unfold ensure
  cases hl : lb.table.lookup spec.key with
  | some a => rfl
  | none =>
    simp only
    cases hr : resolvePool lb.pools spec.ns with
    | none => rfl
    | some pool =>
      simp only
      rcases hal : lb.table.allocate spec.key pool spec.pinned with ⟨res, t'⟩
      cases res with
      | error e => rfl
      | ok al =>
        have := AllocationTable.allocate_forward_of_ne lb.table spec.key k pool spec.pinned hk
        rw [hal] at this
        exact this

theorem step_lookup (lb : LoadBalancerManager Client) (c : AdapterCall) (k : ServiceKey)
    (a : Allocation) (h : lb.table.lookup k = some a) (hc : c ≠ .delete k) :
    (lb.step c).table.lookup k = some a := by
  cases c with
  | ensure spec =>
    by_cases hk : k = spec.key
    · subst hk
      simp only [step]
      rw [ensure_of_lookup lb spec a h]
      exact h
    · simp only [step]
      rw [ensure_lookup_of_ne lb spec k hk]
      exact h
  | delete key =>
    have hk : k ≠ key := fun e => hc (by rw [e])
    simp only [step, delete, AllocationTable.lookup, AllocationTable.release_forward, hk,
      if_false]
    exact h

theorem run_lookup (calls : List AdapterCall) (lb : LoadBalancerManager Client)
    (k : ServiceKey) (a : Allocation) (h : lb.table.lookup k = some a)
    (hc : ∀ c ∈ calls, c ≠ .delete k) : (lb.run calls).table.lookup k = some a := by
  induction calls generalizing lb with
  | nil => exact h
  | cons c rest ih =>
    exact ih (lb.step c) (step_lookup lb c k a h (hc c (List.mem_cons_self _ _)))
      (fun c' hc' => hc c' (List.mem_cons_of_mem _ hc'))

end LoadBalancerManager

/-- C6. Take the load balancer a provider returns from `LoadBalancer()`.  A
second `ensure` of the same spec right after the first gives the same result
and leaves the load balancer as the first call left it, so no second address
is allocated; and when the first call assigned an address, a second call after
any calls in between that do not delete the service still returns that
address and changes nothing. -/
theorem ensure_idempotent {Client : Type}
    (p : KubeVipCloudProvider (LoadBalancerManager Client))
    (lb : LoadBalancerManager Client) (spec : ServiceSpec)
    (_ : p.LoadBalancer.1 = some lb) :
    (lb.ensure spec).2.ensure spec = lb.ensure spec ∧
    ∀ (between : List AdapterCall) (addrs : List Address),
      (∀ c ∈ between, c ≠ .delete spec.key) →
      (lb.ensure spec).1 = .ok addrs →
      ((lb.ensure spec).2.run between).ensure spec =
        (.ok addrs, (lb.ensure spec).2.run between) := by
  refine ⟨LoadBalancerManager.ensure_twice lb spec, fun between addrs hb hok => ?_⟩
  obtain ⟨a, ha, haddrs⟩ := LoadBalancerManager.ensure_ok_lookup lb spec addrs hok
  rw [LoadBalancerManager.ensure_of_lookup _ spec a
    (LoadBalancerManager.run_lookup between _ spec.key a ha hb), haddrs]

/-- C6 at the sample load balancer held by a provider: `svc-a` is assigned the
address 1; after `svc-b` is ensured and deleted and `svc-c` is ensured, a
second `ensure` of `svc-a` returns the address 1 again and leaves the load
balancer as it was. -/
theorem ensure_idempotent_witness :
    ((sampleLoadBalancer.ensure (sampleSpec "svc-a")).2.run
        [.ensure (sampleSpec "svc-b"), .delete (sampleSpec "svc-b").key,
          .ensure (sampleSpec "svc-c")]).ensure (sampleSpec "svc-a") =
      (.ok [1], (sampleLoadBalancer.ensure (sampleSpec "svc-a")).2.run
        [.ensure (sampleSpec "svc-b"), .delete (sampleSpec "svc-b").key,
          .ensure (sampleSpec "svc-c")]) :=
  (ensure_idempotent ⟨some sampleLoadBalancer⟩ sampleLoadBalancer (sampleSpec "svc-a") rfl).2
    _ [1] (by simp [sampleSpec, ServiceSpec.key]) rfl

end Provider
